import Mathlib

/-
Shallow embedding of the computational core of the BSEACD Climate-Data-API
pipeline (src/data_processing.py, src/napi.py, src/utils.py).

Modelling conventions:
- Python/NumPy floating-point values are modelled as exact rationals (ℚ).
  A float NaN is modelled as `none` in `Option ℚ`, so a raster cell is an
  `Option ℚ` and a statistic that NumPy would return as NaN is `none`.
- `round(x, d)` (Python's builtin, also used by NumPy scalars) rounds half
  to even; `pyRound` implements that on ℚ.
- Logging calls are modelled by `LogEvent` values returned alongside the
  computed data, so that the warning-versus-error distinction is visible.
- Raised exceptions are modelled with `Except String`.
-/

set_option autoImplicit false

namespace ClimateDataAPI

/-- Equality of modelled exception results is decidable. -/
instance {ε α : Type} [DecidableEq ε] [DecidableEq α] : DecidableEq (Except ε α) := fun a b =>
  match a, b with
  | .ok x, .ok y => if h : x = y then .isTrue (by rw [h]) else .isFalse (by simp [h])
  | .error x, .error y => if h : x = y then .isTrue (by rw [h]) else .isFalse (by simp [h])
  | .ok _, .error _ => .isFalse (by simp)
  | .error _, .ok _ => .isFalse (by simp)

/-- Log levels of the `logging` calls that the embedded code performs. -/
inductive LogLevel where
  | info
  | warning
  | error
  deriving DecidableEq, Repr

/-- One logging call: a level and the message text. -/
structure LogEvent where
  level : LogLevel
  msg : String
  deriving DecidableEq, Repr

/-- Round-half-to-even to an integer, the tie-breaking rule of Python's
builtin `round` (and of NumPy rounding). -/
def roundHalfEven (q : ℚ) : ℤ :=
  let f := ⌊q⌋
  let r := q - f
  if r < 1 / 2 then f
  else if 1 / 2 < r then f + 1
  else if f % 2 = 0 then f else f + 1

/-- Python's `round(x, d)` on our rational model of floats. -/
def pyRound (x : ℚ) (d : ℕ) : ℚ :=
  (roundHalfEven (x * 10 ^ d) : ℚ) / 10 ^ d

/-- The numeric (non-NaN) entries of a sample. -/
def optVals (l : List (Option ℚ)) : List ℚ :=
  l.filterMap id

/-- Whether a sample contains a NaN entry (NumPy statistics propagate it). -/
def hasNaN (l : List (Option ℚ)) : Bool :=
  l.any (fun c => c.isNone)

/-- NumPy `np.min` over the sample: NaN if any entry is NaN, else the minimum
(`none` on the empty sample, which every caller in the source guards). -/
def npMin (l : List (Option ℚ)) : Option ℚ :=
  if hasNaN l then none
  else
    match optVals l with
    | [] => none
    | x :: xs => some (xs.foldl min x)

/-- NumPy `np.max` over the sample, with NaN propagation. -/
def npMax (l : List (Option ℚ)) : Option ℚ :=
  if hasNaN l then none
  else
    match optVals l with
    | [] => none
    | x :: xs => some (xs.foldl max x)

/-- NumPy `np.mean` over the sample, with NaN propagation. -/
def npMean (l : List (Option ℚ)) : Option ℚ :=
  if hasNaN l then none
  else
    match optVals l with
    | [] => none
    | x :: xs => some ((x :: xs).sum / (x :: xs).length)

/-- Insert into an ascending list, before the first strictly greater element
(so the sort below is stable, as required for modelling a stable row sort). -/
def insertAsc {α : Type} (le : α → α → Bool) (a : α) : List α → List α
  | [] => [a]
  | b :: l => if le a b then a :: b :: l else b :: insertAsc le a l

/-- Stable ascending sort (structural insertion sort; the sorted order is
what matters, and it agrees with NumPy's and pandas's ascending sorts). -/
def sortAsc {α : Type} (le : α → α → Bool) : List α → List α
  | [] => []
  | a :: l => insertAsc le a (sortAsc le l)

/-- Sort a list of rationals ascending (NumPy's sort inside `np.median`). -/
def sortedVals (l : List ℚ) : List ℚ :=
  sortAsc (fun a b => a ≤ b) l

/-- NumPy `np.median` over the sample: sort, take the middle element, or the mean
of the two middle elements for an even-sized sample; NaN propagates. -/
def npMedian (l : List (Option ℚ)) : Option ℚ :=
  if hasNaN l then none
  else
    match optVals l with
    | [] => none
    | x :: xs =>
      let s := sortedVals (x :: xs)
      let n := s.length
      if n % 2 = 1 then some (s.getD (n / 2) 0)
      else some ((s.getD (n / 2 - 1) 0 + s.getD (n / 2) 0) / 2)

/-- Python's `s.startswith(p)` (structural, over the character lists). -/
def strStartsWith (s p : String) : Bool :=
  p.data.isPrefixOf s.data

/-- The dictionary returned by `calculate_stats` (data_processing.py:36-84):
minimum, maximum, arithmetic mean and median, each possibly NaN. -/
structure StatsDict where
  min : Option ℚ
  max : Option ℚ
  mean : Option ℚ
  median : Option ℚ
  deriving DecidableEq, Repr

/-- Apply a unit conversion `f` to each base statistic and round to the
requested number of decimals (the per-branch bodies of `calculate_stats`). -/
def convertedStats (cmin cmax cmean cmed : Option ℚ) (f : ℚ → ℚ) (decimals : ℕ) : StatsDict :=
  ⟨cmin.map (fun v => pyRound (f v) decimals),
   cmax.map (fun v => pyRound (f v) decimals),
   cmean.map (fun v => pyRound (f v) decimals),
   cmed.map (fun v => pyRound (f v) decimals)⟩

/-- Embedding of `calculate_stats` (data_processing.py:36-84).  `25.40` in the
source is the exact rational 127/5.  The second component collects the
logging performed by the function (the generic-variable fallback warning). -/
def calculate_stats (series : List (Option ℚ)) (climate unit : String) (decimals : ℕ) :
    StatsDict × List LogEvent :=
  if series.isEmpty || series.all (fun c => c.isNone) then
    (⟨none, none, none, none⟩, [])
  else
    let cmin := npMin series
    let cmax := npMax series
    let cmean := npMean series
    let cmed := npMedian series
    if climate = "ppt" then
      if unit = "in" then
        (convertedStats cmin cmax cmean cmed (fun v => v / (127 / 5)) decimals, [])
      else
        (convertedStats cmin cmax cmean cmed (fun v => v) decimals, [])
    else if strStartsWith climate "t" then
      if unit = "f" then
        (convertedStats cmin cmax cmean cmed (fun v => v * 9 / 5 + 32) decimals, [])
      else
        (convertedStats cmin cmax cmean cmed (fun v => v) decimals, [])
    else
      (convertedStats cmin cmax cmean cmed (fun v => v) decimals,
       [⟨.warning, "Climate variable not explicitly handled. Calculating generic statistics."⟩])

/-! ### Filename parsing (utils.py:73-110)

The source matches the regular expression
`prism_([a-zA-Z]+)(?:_([\da-zA-Z]+))?_([\da-zA-Z]+)_(\d{8}|\d{6})(?:_([\da-zA-Z]+))?.tif`
with `re.search`.  The matcher below is a complete backtracking decision
procedure for this one pattern, with Python's priorities (greedy `+`,
greedy optional groups, left alternative of `|` first, leftmost search
position first), so it matches exactly when `re.search` does and captures
the same groups. -/

/-- Strip a literal character prefix, returning the rest on success. -/
def dropLit : List Char → List Char → Option (List Char)
  | [], l => some l
  | _ :: _, [] => none
  | c :: s, d :: l => if c = d then dropLit s l else none

/-- All ways to split off a nonempty run of `p`-characters, longest run
first (the backtracking order of a greedy `+`). -/
def plusSplits (p : Char → Bool) : List Char → List (List Char × List Char)
  | [] => []
  | c :: l =>
    if p c then ((plusSplits p l).map (fun s => (c :: s.1, s.2))) ++ [([c], l)]
    else []

/-- Split off exactly `n` `p`-characters, if possible. -/
def exactSplit (p : Char → Bool) : ℕ → List Char → Option (List Char × List Char)
  | 0, l => some ([], l)
  | _ + 1, [] => none
  | n + 1, c :: l =>
    if p c then (exactSplit p n l).map (fun s => (c :: s.1, s.2)) else none

/-- The alternatives of the optional group `(?:_([\da-zA-Z]+))?`: the
captured present cases (longest first), then the absent case. -/
def optSplits (l : List Char) : List (Option (List Char) × List Char) :=
  (match l with
   | '_' :: l2 => (plusSplits Char.isAlphanum l2).map (fun s => (some s.1, s.2))
   | _ => []) ++ [(none, l)]

/-- The alternatives of `(\d{8}|\d{6})`, eight digits tried first. -/
def dateSplits (l : List Char) : List (List Char × List Char) :=
  (match exactSplit Char.isDigit 8 l with | some s => [s] | none => []) ++
  (match exactSplit Char.isDigit 6 l with | some s => [s] | none => [])

/-- Return the first success of `f` over the listed alternatives. -/
def firstSome {α β : Type} (f : α → Option β) : List α → Option β
  | [] => none
  | a :: rest =>
    match f a with
    | some b => some b
    | none => firstSome f rest

/-- The four captured groups the source uses: variable, optional region,
resolution, and raw date digits. -/
structure PrismGroups where
  gVar : List Char
  gRegion : Option (List Char)
  gRes : List Char
  gDate : List Char
  deriving DecidableEq, Repr

/-- Try the whole pattern anchored at the start of `l` (the unescaped `.`
before `tif` matches any character, as in the source pattern). -/
def matchPrismAt (l : List Char) : Option PrismGroups :=
  match dropLit "prism_".data l with
  | none => none
  | some l1 =>
    firstSome (fun s1 =>
      firstSome (fun s2 =>
        match s2.2 with
        | '_' :: l4 =>
          firstSome (fun s3 =>
            match s3.2 with
            | '_' :: l6 =>
              firstSome (fun s4 =>
                firstSome (fun s5 =>
                  match s5.2 with
                  | _ :: l9 => (dropLit "tif".data l9).map (fun _ => ⟨s1.1, s2.1, s3.1, s4.1⟩)
                  | [] => none)
                  (optSplits s4.2))
                (dateSplits l6)
            | _ => none)
            (plusSplits Char.isAlphanum l4)
        | _ => none)
        (optSplits s1.2))
      (plusSplits Char.isAlpha l1)

/-- Model of `re.search`: try each start position left to right. -/
def searchPrism : List Char → Option PrismGroups
  | [] => matchPrismAt []
  | c :: l =>
    match matchPrismAt (c :: l) with
    | some g => some g
    | none => searchPrism l

/-- Numeric value of a digit string. -/
def natOfDigits (l : List Char) : ℕ :=
  l.foldl (fun a c => a * 10 + (c.toNat - 48)) 0

/-- Gregorian leap-year rule used by `datetime`. -/
def isLeap (y : ℕ) : Bool :=
  y % 4 = 0 && (y % 100 ≠ 0 || y % 400 = 0)

/-- Days in a month, as validated by `datetime.strptime`. -/
def daysInMonth (y m : ℕ) : ℕ :=
  if m = 2 then (if isLeap y then 29 else 28)
  else if m = 4 ∨ m = 6 ∨ m = 9 ∨ m = 11 then 30
  else 31

/-- The date-reformatting step of `parse_filename` (utils.py:91-104):
`YYYYMMDD` becomes `YYYY-MM-DD` and `YYYYMM` becomes `YYYY-MM` when
`strptime` accepts the digits as a real calendar date; otherwise the raw
digit string is kept (the caught `ValueError` fallback). -/
def formatPrismDate (g : List Char) : String :=
  if g.length = 8 then
    let y := natOfDigits (g.take 4)
    let m := natOfDigits ((g.drop 4).take 2)
    let d := natOfDigits (g.drop 6)
    if 1 ≤ y ∧ 1 ≤ m ∧ m ≤ 12 ∧ 1 ≤ d ∧ d ≤ daysInMonth y m then
      ⟨g.take 4⟩ ++ "-" ++ ⟨(g.drop 4).take 2⟩ ++ "-" ++ ⟨g.drop 6⟩
    else ⟨g⟩
  else if g.length = 6 then
    let y := natOfDigits (g.take 4)
    let m := natOfDigits (g.drop 4)
    if 1 ≤ y ∧ 1 ≤ m ∧ m ≤ 12 then ⟨g.take 4⟩ ++ "-" ++ ⟨g.drop 4⟩
    else ⟨g⟩
  else ⟨g⟩

/-- Embedding of `parse_filename` (utils.py:73-110).  On a regex match it
returns (variable, region, resolution, formatted date); on a failed match
the source RAISES `ValueError` (utils.py:108) — the `return None, None,
None, None` after the raise is unreachable — modelled here as `.error`. -/
def parse_filename (filename : String) :
    Except String (String × Option String × String × String) :=
  match searchPrism filename.data with
  | some g => .ok (⟨g.gVar⟩, g.gRegion.map (fun r => ⟨r⟩), ⟨g.gRes⟩, formatPrismDate g.gDate)
  | none => .error ("Regex did not match filename: " ++ filename ++ ". Could not parse.")

/-! ### Per-raster statistics extraction (data_processing.py:86-206) -/

/-- Python's `str.split(sep)` for a single-character separator. -/
def pySplit (sep : Char) : List Char → List (List Char)
  | [] => [[]]
  | c :: rest =>
    match pySplit sep rest with
    | [] => [[]]
    | g :: gs => if c = sep then [] :: g :: gs else (c :: g) :: gs

/-- List lookup with a default (`parts[i]` on lists known long enough). -/
def nthD {α : Type} (d : α) : List α → ℕ → α
  | [], _ => d
  | a :: _, 0 => a
  | _ :: l, n + 1 => nthD d l n

/-- The stem of `os.path.splitext`: cut at the last dot, unless every
character before that dot is itself a dot (CPython's leading-dot rule). -/
def splitextStem (s : String) : String :=
  let cs := s.data
  match cs.reverse.findIdx? (fun c => c = '.') with
  | none => s
  | some rIdx =>
    let i := cs.length - 1 - rIdx
    if (cs.take i).all (fun c => c = '.') then s else ⟨cs.take i⟩

/-- The nodata specifier of a raster: `src.nodata` is absent (`None`), a
finite sentinel number, a float NaN, or (defensively, in the source) a
value of unexpected type. -/
inductive Nodata where
  | absent
  | sentinel (v : ℚ)
  | nanVal
  | unexpected
  deriving DecidableEq, Repr

/-- In-memory model of one opened raster: basename, first band as a 2-D
grid of cells (NaN cells are `none`), nodata specifier, scale and offset
from the metadata (`src.scales[0]`/`src.offsets[0]`, defaulting 1.0/0.0). -/
structure Raster where
  name : String
  grid : List (List (Option ℚ))
  nodata : Nodata
  scale : ℚ
  offset : ℚ
  deriving DecidableEq, Repr

/-- The defensive warning logged while dispatching on the nodata type
(data_processing.py:136-140). -/
def nodataWarnings (r : Raster) : List LogEvent :=
  match r.nodata with
  | .unexpected =>
    [⟨.warning, "Unexpected nodata_mask type for " ++ r.name ++
      ". Proceeding without specific nodata filter."⟩]
  | _ => []

/-- The valid sample `data_series` (data_processing.py:128-143): nodata
filtering of the flattened band.  Filtering the 2-D array with a boolean
mask equals flattening row-major and filtering.  For a numeric sentinel,
NumPy's `data != nodata` keeps NaN cells (NaN compares unequal); for a NaN
nodata, `~np.isnan(data)` keeps exactly the numeric cells; otherwise all
cells are kept. -/
def validSample (r : Raster) : List (Option ℚ) :=
  let data := r.grid.flatten
  match r.nodata with
  | .sentinel v => data.filter (fun c => !(c == some v))
  | .nanVal => data.filter (fun c => c.isSome)
  | .absent => data
  | .unexpected => data

/-- One row of the output CSV (data_processing.py:166-175): filename, the
run's climate variable, the parsed date, and the four statistics. -/
structure Row where
  filename : String
  climateVar : String
  date : String
  min : Option ℚ
  max : Option ℚ
  mean : Option ℚ
  median : Option ℚ
  deriving DecidableEq, Repr

/-- The body of `climate_data`'s per-raster loop (data_processing.py:113-194).
`.ok (none, logs)` models the `continue` that skips a raster; `.error`
models an exception reaching the loop's handlers, which log and RE-RAISE
(data_processing.py:188 and 194), aborting the run.

Two faithfulness notes, visible in the source:
- `clean_data` (data_processing.py:126) applies scale/offset but is never
  read again: the nodata filtering and the statistics use the raw `data`.
  The unused binding is kept below.
- a filename the regex rejects makes `parse_filename` raise (utils.py:108),
  so the `if not variable` fallback (data_processing.py:153-163) is
  unreachable; it is kept below. -/
def processRaster (r : Raster) (climate unit : String) (decimals : ℕ) :
    Except String (Option Row × List LogEvent) :=
  let data := r.grid.flatten
  let _clean_data :=
    if r.scale ≠ 1 ∨ r.offset ≠ 0 then
      data.map (fun c => c.map (fun v => v * r.scale + r.offset))
    else data
  let series := validSample r
  if series.isEmpty || series.all (fun c => c.isNone) then
    .ok (none, nodataWarnings r ++
      [⟨.warning, "All valid data is NoData/NaN in " ++ r.name ++ ". Skipping."⟩])
  else
    let stats := calculate_stats series climate unit decimals
    match parse_filename r.name with
    | .error e => .error ("Error processing raster " ++ r.name ++ ": " ++ e)
    | .ok (varName, _, _, formatted_date) =>
      let fdate :=
        if varName = "" then
          let parts := pySplit '_' r.name.data
          if 5 ≤ parts.length then String.mk (nthD [] parts 3) else "unknown"
        else formatted_date
      .ok (some ⟨r.name, climate, fdate, stats.1.min, stats.1.max, stats.1.mean, stats.1.median⟩,
        nodataWarnings r ++ stats.2)

/-- Embedding of `climate_data`'s loop over the clipped rasters
(data_processing.py:110-194): emitted rows in processing order; a skipped
raster contributes nothing; a raised exception aborts the remaining
rasters and propagates (the outer handlers at data_processing.py:195-206
also re-raise). -/
def climate_data (rasters : List Raster) (climate unit : String) (decimals : ℕ) :
    Except String (List Row) :=
  match rasters with
  | [] => .ok []
  | r :: rs =>
    match processRaster r climate unit decimals with
    | .error e => .error e
    | .ok (none, _) => climate_data rs climate unit decimals
    | .ok (some row, _) =>
      match climate_data rs climate unit decimals with
      | .error e => .error e
      | .ok rows => .ok (row :: rows)

/-! ### Clipped-raster output naming (data_processing.py:247-259) -/

/-- The output-name computation of `raster_clip` (data_processing.py:247-259):
split the basename on the underscore delimiter; with at least five fields
the name is rebuilt from fields 0, 1, 3 and 4 (extension stripped from
field 4) with the `_clip.tif` marker; otherwise the stem plus `_clip.tif`,
with a logged warning.  In both cases the clipped raster is then written
under the returned name (data_processing.py:261-268). -/
def raster_clip_name (filename : String) : String × List LogEvent :=
  let parts := pySplit '_' filename.data
  if 5 ≤ parts.length then
    let source := nthD [] parts 0
    let climate_var := nthD [] parts 1
    let resolution := nthD [] parts 3
    let date := nthD [] (pySplit '.' (nthD [] parts 4)) 0
    (⟨source⟩ ++ "_" ++ ⟨climate_var⟩ ++ "_" ++ ⟨resolution⟩ ++ "_" ++ ⟨date⟩ ++ "_clip.tif", [])
  else
    (splitextStem filename ++ "_clip.tif",
     [⟨.warning, "Could not parse filename for clipped output: " ++ filename⟩])

/-! ### Antecedent index engine (napi.py:27-108)

The CSV is modelled as the column-name list plus, per data row, the pair
(date string, precipitation value): `calculate_napi` reads exactly the
`date_field` and `ppt_field` columns.  `pd.read_csv` failing is modelled by
passing `.error` as the read result. -/

/-- One parsed CSV table, as `calculate_napi` sees it. -/
structure CsvTable where
  columns : List String
  rows : List (String × ℚ)
  deriving DecidableEq, Repr

/-- Parse one or two digit groups bounded in length, as `strptime` fields. -/
def digitField (maxLen : ℕ) (g : List Char) : Option ℕ :=
  if g.length = 0 ∨ maxLen < g.length then none
  else if g.all Char.isDigit then some (natOfDigits g) else none

/-- Model of `pd.to_datetime(s, format=%Y-%m-%d)` (napi.py:47), reduced to a sortable
ordinal key `y*10000 + m*100 + d`; raises on anything but a valid
hyphen-separated calendar date. -/
def parseDaily (s : String) : Except String ℕ :=
  match pySplit '-' s.data with
  | [y, m, d] =>
    match digitField 4 y, digitField 2 m, digitField 2 d with
    | some yn, some mn, some dn =>
      if 1 ≤ yn ∧ 1 ≤ mn ∧ mn ≤ 12 ∧ 1 ≤ dn ∧ dn ≤ daysInMonth yn mn then
        .ok (yn * 10000 + mn * 100 + dn)
      else .error ("time data " ++ s ++ " does not match format %Y-%m-%d")
    | _, _, _ => .error ("time data " ++ s ++ " does not match format %Y-%m-%d")
  | _ => .error ("time data " ++ s ++ " does not match format %Y-%m-%d")

/-- Model of `pd.to_datetime(s, format=%Y-%m)` (napi.py:49), key `y*100 + m`. -/
def parseMonthly (s : String) : Except String ℕ :=
  match pySplit '-' s.data with
  | [y, m] =>
    match digitField 4 y, digitField 2 m with
    | some yn, some mn =>
      if 1 ≤ yn ∧ 1 ≤ mn ∧ mn ≤ 12 then .ok (yn * 100 + mn)
      else .error ("time data " ++ s ++ " does not match format %Y-%m")
    | _, _ => .error ("time data " ++ s ++ " does not match format %Y-%m")
  | _ => .error ("time data " ++ s ++ " does not match format %Y-%m")

/-- The date conversion of napi.py:46-51 per resolution; the final branch
is `pd.to_datetime` with inferred format, approximated for the ISO forms
this pipeline writes (full date, else year-month). -/
def parseDate (resolution : String) (s : String) : Except String ℕ :=
  if resolution = "daily" then parseDaily s
  else if resolution = "monthly" then parseMonthly s
  else
    match parseDaily s with
    | .ok k => .ok k
    | .error _ => parseMonthly s

/-- Attach the parsed date key to every row; the first unparseable date
string raises, as the column-wide `pd.to_datetime` call does. -/
def parseRows (resolution : String) : List (String × ℚ) → Except String (List (ℕ × (String × ℚ)))
  | [] => .ok []
  | r :: rs =>
    match parseDate resolution r.1 with
    | .error e => .error e
    | .ok key =>
      match parseRows resolution rs with
      | .error e => .error e
      | .ok ps => .ok ((key, r) :: ps)

/-- Model of `df.sort_values(by=date_field)` then `reset_index` (napi.py:53-54):
rows in ascending date order. -/
def sortByDate (parsed : List (ℕ × (String × ℚ))) : List (String × ℚ) :=
  (sortAsc (fun a b => a.1 ≤ b.1) parsed).map (fun p => p.2)

/-- Model of `df[ppt_field].mean()` (napi.py:57): pandas's mean of an empty column
is NaN (`none`); otherwise the arithmetic mean. -/
def rowsMean (rows : List (String × ℚ)) : Option ℚ :=
  if rows.isEmpty then none
  else some ((rows.map (fun r => r.2)).sum / rows.length)

/-- The denominator sum `Σ_{j=1..N} k^j` (napi.py:70). -/
def decaySum (k : ℚ) (n : ℕ) : ℚ :=
  ((List.range n).map (fun j => k ^ (j + 1))).sum

/-- The numerator `Σ_{j=1..N} ppt[i-j] * k^j` for row `i` (napi.py:74-76). -/
def napiNumerator (ppt : List ℚ) (k : ℚ) (n i : ℕ) : ℚ :=
  ((List.range n).map (fun j => nthD 0 ppt (i - (j + 1)) * k ^ (j + 1))).sum

/-- The per-row wetness classification (napi.py:86-98), applied to the
stored NAPI value: NaN stays undefined; within 1e-6 of 1 is "normal";
then strictly greater than 1 is "wet"; then strictly less than 1 is
"dry"; the final fallback (unreachable over the rationals) is undefined. -/
def classifyNapi (v : Option ℚ) : Option String :=
  match v with
  | none => none
  | some x =>
    if |x - 1| < 1 / 1000000 then some "normal"
    else if 1 < x then some "wet"
    else if x < 1 then some "dry"
    else none

/-- One rewritten CSV row: date string, precipitation, the NAPI column
value, and the Conditions column value (meaningful only when the
Conditions column was added). -/
structure WrittenRow where
  dateStr : String
  ppt : ℚ
  napi : Option ℚ
  conditions : Option String
  deriving DecidableEq, Repr

/-- The table written back by `df.to_csv` (napi.py:63 or napi.py:100); the
zero-mean early return adds only the NAPI column, so `hasConditionsCol`
records whether the Conditions column exists. -/
structure WrittenTable where
  rows : List WrittenRow
  hasConditionsCol : Bool
  deriving DecidableEq, Repr

/-- What a `calculate_napi` call produces: the boolean it returns, the
table written to the file (`none` when the file was not rewritten), and
its logging. -/
structure NapiOutcome where
  success : Bool
  written : Option WrittenTable
  logs : List LogEvent
  deriving DecidableEq, Repr

/-- The NAPI and Conditions assignment loops (napi.py:66-98) over the
date-sorted rows, with `mean_ppt = m`: rows with index at least
`ante_days` get the rounded quotient when `mean_ppt * denominator` is
nonzero and NaN when it is zero; earlier rows keep the NaN
initialization; Conditions classifies the stored NAPI value. -/
def napiMain (sorted : List (String × ℚ)) (k : ℚ) (ante_days : ℕ) (m : ℚ) (decimals : ℕ) :
    List WrittenRow :=
  let ppt := sorted.map (fun r => r.2)
  let denominator := decaySum k ante_days
  (List.range sorted.length).map (fun i =>
    let napi :=
      if ante_days ≤ i then
        if m * denominator ≠ 0 then
          some (pyRound (napiNumerator ppt k ante_days i / (m * denominator)) decimals)
        else none
      else none
    ⟨(nthD ("", 0) sorted i).1, (nthD ("", 0) sorted i).2, napi, classifyNapi napi⟩)

/-- The body of `calculate_napi`'s `try` block (napi.py:39-103): read the
CSV, check the required columns (early `return False` without writing,
napi.py:41-44), parse and sort the dates, take the column mean, handle
the zero-mean degenerate case (write the NAPI-only table and return True,
napi.py:59-64), else run the main loops and rewrite the table.  A
`.error` result is an exception escaping the `try` block. -/
def napiBody (readResult : Except String CsvTable) (k : ℚ) (ante_days : ℕ)
    (ppt_field date_field resolution : String) (decimals : ℕ) : Except String NapiOutcome :=
  match readResult with
  | .error e => .error e
  | .ok tbl =>
    if ppt_field ∈ tbl.columns ∧ date_field ∈ tbl.columns then
      match parseRows resolution tbl.rows with
      | .error e => .error e
      | .ok parsed =>
        let sorted := sortByDate parsed
        if rowsMean sorted = some 0 then
          .ok ⟨true,
            some ⟨sorted.map (fun r => ⟨r.1, r.2, none, none⟩), false⟩,
            [⟨.warning, "Mean precipitation is zero. NAPI cannot be calculated due to division by zero. Assigning NaN to NAPI column."⟩]⟩
        else
          .ok ⟨true,
            some ⟨napiMain sorted k ante_days ((rowsMean sorted).getD 0) decimals, true⟩,
            [⟨.info, "NAPI calculation complete."⟩]⟩
    else
      .ok ⟨false, none,
        [⟨.error, "Required columns " ++ ppt_field ++ " or " ++ date_field ++ " not found in the CSV."⟩]⟩

/-- Embedding of `calculate_napi` (napi.py:27-108): the whole body runs in
a `try` whose handler logs the exception and returns False (napi.py:105-108),
so no exception propagates to the caller. -/
def calculate_napi (readResult : Except String CsvTable) (k : ℚ) (ante_days : ℕ)
    (ppt_field date_field resolution : String) (decimals : ℕ) : NapiOutcome :=
  match napiBody readResult k ante_days ppt_field date_field resolution decimals with
  | .ok outcome => outcome
  | .error e => ⟨false, none, [⟨.error, "An error occurred during NAPI calculation: " ++ e⟩]⟩

example : parse_filename "prism_ppt_us_20200101.tif" =
    .ok ("ppt", none, "us", "2020-01-01") := by decide

example : parse_filename "prism_ppt_us_30s_20200101.tif" =
    .ok ("ppt", some "us", "30s", "2020-01-01") := by decide

example : parse_filename "prism_ppt_us_20181301.tif" =
    .ok ("ppt", none, "us", "20181301") := by decide

example : parse_filename "badname.tif" =
    .error "Regex did not match filename: badname.tif. Could not parse." := by decide

example : splitextStem "a.tif" = "a" := by decide

example : splitextStem "noext" = "noext" := by decide

example : splitextStem ".tif" = ".tif" := by decide

example : raster_clip_name "prism_ppt_us_30s_20200101.tif" =
    ("prism_ppt_30s_20200101_clip.tif", []) := by decide

example : raster_clip_name "odd.tif" =
    ("odd_clip.tif", [⟨.warning, "Could not parse filename for clipped output: odd.tif"⟩]) := by
  decide

example : parseDaily "2020-01-31" = .ok 20200131 := by decide

example : parseDaily "2019-02-29" =
    .error "time data 2019-02-29 does not match format %Y-%m-%d" := by decide

example : parseMonthly "2020-07" = .ok 202007 := by decide

example : classifyNapi (some (999 / 1000)) = some "dry" := by
  norm_num [classifyNapi, abs]

example : (calculate_stats [some (127 / 5)] "ppt" "in" 2).1.mean = some 1 := by
  simp [calculate_stats, convertedStats, npMean, optVals, hasNaN]
  norm_num [pyRound, roundHalfEven]

example : (calculate_stats [some 10] "tmean" "f" 2).1.max = some 50 := by
  simp [calculate_stats, convertedStats, npMax, optVals, hasNaN, strStartsWith]
  norm_num [pyRound, roundHalfEven]

example : (calculate_stats [some 1, some 2, some 3, some 4] "ppt" "mm" 2).1.median = some (5 / 2) := by
  simp [calculate_stats, convertedStats, npMedian, optVals, hasNaN, sortedVals, sortAsc, insertAsc]
  norm_num [pyRound, roundHalfEven]

/-! ### Helper lemmas -/

lemma nthD_eq_getD {α : Type} (d : α) (l : List α) (i : ℕ) : nthD d l i = l.getD i d := by
  induction l generalizing i with
  | nil => cases i <;> rfl
  | cons a t ih => cases i with
    | zero => rfl
    | succ n => exact ih n

lemma nthD_map_range {α : Type} (d : α) (f : ℕ → α) (n i : ℕ) (h : i < n) :
    nthD d ((List.range n).map f) i = f i := by
  rw [nthD_eq_getD, List.getD_eq_getElem?_getD, List.getElem?_map, List.getElem?_range h]
  rfl

/-- Every row produced by the main NAPI loop carries the classification of
its own stored NAPI value. -/
lemma napiMain_conditions (sorted : List (String × ℚ)) (k : ℚ) (N : ℕ) (m : ℚ) (d : ℕ) :
    ∀ row ∈ napiMain sorted k N m d, row.conditions = classifyNapi row.napi := by
  intro row hrow
  simp only [napiMain, List.mem_map] at hrow
  obtain ⟨i, _, hrow⟩ := hrow
  subst hrow
  rfl

/-- Case analysis on a successful `napiBody` run: either nothing was
written, or one of the two writing sites produced the table. -/
lemma napiBody_ok_cases (rr : Except String CsvTable) (k : ℚ) (N : ℕ)
    (pf df res : String) (d : ℕ) (o : NapiOutcome)
    (h : napiBody rr k N pf df res d = .ok o) :
    o.written = none ∨
    (∃ parsed, o.written =
      some ⟨(sortByDate parsed).map (fun r => ⟨r.1, r.2, none, none⟩), false⟩) ∨
    (∃ parsed m, o.written = some ⟨napiMain (sortByDate parsed) k N m d, true⟩) := by
  cases rr with
  | error e => simp [napiBody] at h
  | ok tbl =>
    simp only [napiBody] at h
    split at h
    · cases hpr : parseRows res tbl.rows with
      | error e => rw [hpr] at h; simp at h
      | ok parsed =>
        rw [hpr] at h
        simp only at h
        split at h
        · cases h
          exact Or.inr (Or.inl ⟨parsed, rfl⟩)
        · cases h
          exact Or.inr (Or.inr ⟨parsed, _, rfl⟩)
    · cases h
      exact Or.inl rfl

/-- Any table that `calculate_napi` writes comes from one of the two
writing sites: the zero-mean early return (no Conditions column) or the
main loop (with the Conditions column). -/
lemma calculate_napi_written_cases (rr : Except String CsvTable) (k : ℚ) (N : ℕ)
    (pf df res : String) (d : ℕ) (w : WrittenTable)
    (hw : (calculate_napi rr k N pf df res d).written = some w) :
    (∃ parsed, w = ⟨(sortByDate parsed).map (fun r => ⟨r.1, r.2, none, none⟩), false⟩) ∨
    (∃ parsed m, w = ⟨napiMain (sortByDate parsed) k N m d, true⟩) := by
  unfold calculate_napi at hw
  cases hnb : napiBody rr k N pf df res d with
  | error e => rw [hnb] at hw; simp at hw
  | ok o =>
    rw [hnb] at hw
    simp only at hw
    rcases napiBody_ok_cases rr k N pf df res d o hnb with h0 | ⟨parsed, h1⟩ | ⟨parsed, m, h1⟩
    · rw [h0] at hw; simp at hw
    · rw [h1] at hw
      exact Or.inl ⟨parsed, (Option.some_inj.mp hw).symm⟩
    · rw [h1] at hw
      exact Or.inr ⟨parsed, m, (Option.some_inj.mp hw).symm⟩

/-! ### C4 — wetness classification -/

/-- C4: for every row whose NAPI value is defined, the label is "normal"
within 1e-6 of 1.0, "wet" strictly above 1.0 (outside the tolerance),
"dry" strictly below 1.0 (outside the tolerance); 1.0 ± 1e-7 is "normal",
1.000002 is "wet", 0.999 is "dry"; an undefined NAPI gives an undefined
classification — and every Conditions value that `calculate_napi` writes
is exactly this classification of the row's stored NAPI value. -/
theorem c4_classification :
    (∀ (rr : Except String CsvTable) (k : ℚ) (N : ℕ) (pf df res : String) (d : ℕ)
      (w : WrittenTable),
      (calculate_napi rr k N pf df res d).written = some w →
      w.hasConditionsCol = true →
      ∀ row ∈ w.rows, row.conditions = classifyNapi row.napi) ∧
    (∀ x : ℚ, |x - 1| < 1 / 1000000 → classifyNapi (some x) = some "normal") ∧
    (∀ x : ℚ, ¬ |x - 1| < 1 / 1000000 → 1 < x → classifyNapi (some x) = some "wet") ∧
    (∀ x : ℚ, ¬ |x - 1| < 1 / 1000000 → x < 1 → classifyNapi (some x) = some "dry") ∧
    classifyNapi none = none ∧
    classifyNapi (some (1 + 1 / 10000000)) = some "normal" ∧
    classifyNapi (some (1 - 1 / 10000000)) = some "normal" ∧
    classifyNapi (some (1000002 / 1000000)) = some "wet" ∧
    classifyNapi (some (999 / 1000)) = some "dry" := by
  refine ⟨?_, ?_, ?_, ?_, rfl, ?_, ?_, ?_, ?_⟩
  · intro rr k N pf df res d w hw hc row hrow
    rcases calculate_napi_written_cases rr k N pf df res d w hw with ⟨parsed, rfl⟩ | ⟨parsed, m, rfl⟩
    · simp at hc
    · exact napiMain_conditions _ k N m d row hrow
  · intro x h
    simp only [classifyNapi]
    rw [if_pos h]
  · intro x h h2
    simp only [classifyNapi]
    rw [if_neg h, if_pos h2]
  · intro x h h2
    have h3 : ¬ (1 : ℚ) < x := by linarith
    simp only [classifyNapi]
    rw [if_neg h, if_neg h3, if_pos h2]
  · norm_num [classifyNapi, abs]
  · norm_num [classifyNapi, abs]
  · norm_num [classifyNapi, abs]
  · norm_num [classifyNapi, abs]

/-- C4 witness: the theorem applied at concrete classification inputs. -/
theorem c4_classification_witness :
    classifyNapi (some 2) = some "wet" ∧ classifyNapi (some (1 / 2)) = some "dry" :=
  ⟨c4_classification.2.2.1 2 (by norm_num [abs]) (by norm_num),
   c4_classification.2.2.2.1 (1 / 2) (by norm_num [abs]) (by norm_num)⟩

/-! ### C5 — zero mean precipitation -/

/-- C5: when the precipitation mean is exactly zero, `calculate_napi`
returns success, rewrites the table with every NAPI value undefined and
no Conditions column, and its only logging is a warning. -/
theorem c5_zero_mean (tbl : CsvTable) (k : ℚ) (N : ℕ) (pf df res : String) (d : ℕ)
    (parsed : List (ℕ × (String × ℚ)))
    (hp : pf ∈ tbl.columns) (hd : df ∈ tbl.columns)
    (hparse : parseRows res tbl.rows = .ok parsed)
    (hmean : rowsMean (sortByDate parsed) = some 0) :
    calculate_napi (.ok tbl) k N pf df res d =
      ⟨true,
       some ⟨(sortByDate parsed).map (fun r => ⟨r.1, r.2, none, none⟩), false⟩,
       [⟨.warning, "Mean precipitation is zero. NAPI cannot be calculated due to division by zero. Assigning NaN to NAPI column."⟩]⟩ := by
  simp [calculate_napi, napiBody, hp, hd, hparse, hmean]

/-- C5 witness: an all-zero precipitation table succeeds with an empty
NAPI column and a warning. -/
theorem c5_zero_mean_witness :
    calculate_napi
        (.ok ⟨["Arithmetic Mean (mm)", "Date"], [("2020-01-01", 0), ("2020-01-02", 0)]⟩)
        (49 / 50) 30 "Arithmetic Mean (mm)" "Date" "daily" 2 =
      ⟨true,
       some ⟨[⟨"2020-01-01", 0, none, none⟩, ⟨"2020-01-02", 0, none, none⟩], false⟩,
       [⟨.warning, "Mean precipitation is zero. NAPI cannot be calculated due to division by zero. Assigning NaN to NAPI column."⟩]⟩ := by
  have hparse : parseRows "daily" [("2020-01-01", (0 : ℚ)), ("2020-01-02", 0)] =
      .ok [(20200101, ("2020-01-01", 0)), (20200102, ("2020-01-02", 0))] := by decide
  have h := c5_zero_mean
    ⟨["Arithmetic Mean (mm)", "Date"], [("2020-01-01", 0), ("2020-01-02", 0)]⟩
    (49 / 50) 30 "Arithmetic Mean (mm)" "Date" "daily" 2
    [(20200101, ("2020-01-01", 0)), (20200102, ("2020-01-02", 0))]
    (by decide) (by decide) hparse
    (by norm_num [rowsMean, sortByDate, sortAsc, insertAsc])
  rw [h]
  norm_num [sortByDate, sortAsc, insertAsc]

/-! ### C8 — missing required columns -/

/-- C8: if the precipitation or the date column is absent, the engine
returns False and writes nothing (the file is untouched). -/
theorem c8_missing_columns (tbl : CsvTable) (k : ℚ) (N : ℕ) (pf df res : String) (d : ℕ)
    (h : pf ∉ tbl.columns ∨ df ∉ tbl.columns) :
    calculate_napi (.ok tbl) k N pf df res d =
      ⟨false, none,
       [⟨.error, "Required columns " ++ pf ++ " or " ++ df ++ " not found in the CSV."⟩]⟩ := by
  have h2 : ¬ (pf ∈ tbl.columns ∧ df ∈ tbl.columns) := by tauto
  simp [calculate_napi, napiBody, h2]

/-- C8 witness: a table missing the precipitation column fails without a
write. -/
theorem c8_missing_columns_witness :
    calculate_napi (.ok ⟨["Date"], [("2020-01-01", 3)]⟩) (49 / 50) 30
        "Arithmetic Mean (mm)" "Date" "daily" 2 =
      ⟨false, none,
       [⟨.error, "Required columns Arithmetic Mean (mm) or Date not found in the CSV."⟩]⟩ :=
  c8_missing_columns ⟨["Date"], [("2020-01-01", 3)]⟩ (49 / 50) 30
    "Arithmetic Mean (mm)" "Date" "daily" 2 (Or.inl (by decide))

/-! ### C10 — no exception propagates from calculate_napi -/

/-- C10: `calculate_napi` always returns an outcome; any exception raised
inside its body (unreadable CSV, unparseable date, ...) is caught and
turned into a False return with no file write, including for a failing
read and for a date string that the resolution's format rejects. -/
theorem c10_no_exception_propagation :
    (∀ (rr : Except String CsvTable) (k : ℚ) (N : ℕ) (pf df res : String) (d : ℕ) (e : String),
      napiBody rr k N pf df res d = .error e →
      calculate_napi rr k N pf df res d =
        ⟨false, none, [⟨.error, "An error occurred during NAPI calculation: " ++ e⟩]⟩) ∧
    (∀ (k : ℚ) (N : ℕ) (pf df res : String) (d : ℕ) (msg : String),
      (calculate_napi (.error msg) k N pf df res d).success = false ∧
      (calculate_napi (.error msg) k N pf df res d).written = none) ∧
    (∀ (k : ℚ) (N d : ℕ),
      (calculate_napi (.ok ⟨["p", "d"], [("not-a-date", 5)]⟩) k N "p" "d" "daily" d).success
        = false ∧
      (calculate_napi (.ok ⟨["p", "d"], [("not-a-date", 5)]⟩) k N "p" "d" "daily" d).written
        = none) := by
  refine ⟨?_, ?_, ?_⟩
  · intro rr k N pf df res d e h
    unfold calculate_napi
    rw [h]
  · intro k N pf df res d msg
    constructor <;> simp [calculate_napi, napiBody]
  · intro k N d
    have hpd : parseDate "daily" "not-a-date" =
        .error "time data not-a-date does not match format %Y-%m-%d" := by decide
    constructor <;> simp [calculate_napi, napiBody, parseRows, hpd]

/-- C10 witness: the theorem applied to a failing read and to an
unparseable date string. -/
theorem c10_no_exception_propagation_witness :
    (calculate_napi (.error "No such file or directory") (49 / 50) 30
        "Arithmetic Mean (mm)" "Date" "daily" 2).success = false ∧
    (calculate_napi (.ok ⟨["p", "d"], [("not-a-date", 5)]⟩) (49 / 50) 30
        "p" "d" "daily" 2).success = false :=
  ⟨(c10_no_exception_propagation.2.1 (49 / 50) 30 "Arithmetic Mean (mm)" "Date" "daily" 2
      "No such file or directory").1,
   (c10_no_exception_propagation.2.2 (49 / 50) 30 2).1⟩

/-! ### C1 — the NAPI formula (amended: the decay denominator must also be
nonzero; with k = 0 the source assigns NaN even past the warm-up window) -/

/-- C1 (amended): with both required columns present, parseable dates, a
nonzero precipitation mean `m`, and `m * Σ k^j` nonzero, the engine
rewrites the date-sorted table so that each row with 0-based index
`i ≥ N` holds `round(Σ_{j=1..N} ppt[i-j]·k^j / (m·Σ_{j=1..N} k^j), d)`
and each row with `i < N` holds an undefined NAPI, with `m` the mean of
the whole precipitation column computed once. -/
theorem c1_napi_formula (tbl : CsvTable) (k : ℚ) (N : ℕ) (pf df res : String) (d : ℕ)
    (parsed : List (ℕ × (String × ℚ))) (m : ℚ)
    (hp : pf ∈ tbl.columns) (hd : df ∈ tbl.columns)
    (hparse : parseRows res tbl.rows = .ok parsed)
    (hm : rowsMean (sortByDate parsed) = some m)
    (hm0 : m ≠ 0)
    (hdenom : m * decaySum k N ≠ 0) :
    calculate_napi (.ok tbl) k N pf df res d =
      ⟨true, some ⟨napiMain (sortByDate parsed) k N m d, true⟩,
       [⟨.info, "NAPI calculation complete."⟩]⟩ ∧
    ∀ i, i < (sortByDate parsed).length →
      (N ≤ i →
        (nthD ⟨"", 0, none, none⟩ (napiMain (sortByDate parsed) k N m d) i).napi =
          some (pyRound (napiNumerator ((sortByDate parsed).map (fun r => r.2)) k N i /
            (m * decaySum k N)) d)) ∧
      (i < N →
        (nthD ⟨"", 0, none, none⟩ (napiMain (sortByDate parsed) k N m d) i).napi = none) := by
  constructor
  · have hne : ¬ rowsMean (sortByDate parsed) = some 0 := by
      rw [hm]
      simp [hm0]
    simp [calculate_napi, napiBody, hp, hd, hparse, hne, hm, hm0]
  · intro i hi
    constructor
    · intro hNi
      simp only [napiMain]
      rw [nthD_map_range _ _ _ _ hi]
      simp only [if_pos hNi]
      rw [if_pos hdenom]
    · intro hiN
      have hNi : ¬ N ≤ i := by omega
      simp only [napiMain]
      rw [nthD_map_range _ _ _ _ hi]
      simp [hNi]

/-- C1 counterexample to the unamended claim: decay constant 0 (accepted
by the engine after a warning) gives a zero denominator sum, so with a
nonzero mean the row at index 1 ≥ N = 1 still receives an undefined NAPI
instead of the formula's (rounded) value. -/
theorem c1_counterexample :
    calculate_napi
        (.ok ⟨["Arithmetic Mean (mm)", "Date"], [("2020-01-01", 1), ("2020-01-02", 2)]⟩)
        0 1 "Arithmetic Mean (mm)" "Date" "daily" 2 =
      ⟨true,
       some ⟨[⟨"2020-01-01", 1, none, none⟩, ⟨"2020-01-02", 2, none, none⟩], true⟩,
       [⟨.info, "NAPI calculation complete."⟩]⟩ ∧
    rowsMean [("2020-01-01", (1 : ℚ)), ("2020-01-02", 2)] = some (3 / 2) ∧
    (3 / 2 : ℚ) ≠ 0 ∧
    (none : Option ℚ) ≠
      some (pyRound (napiNumerator [1, 2] 0 1 1 / ((3 / 2) * decaySum 0 1)) 2) := by
  have hparse : parseRows "daily" [("2020-01-01", (1 : ℚ)), ("2020-01-02", 2)] =
      .ok [(20200101, ("2020-01-01", 1)), (20200102, ("2020-01-02", 2))] := by decide
  have hsort : sortByDate [(20200101, ("2020-01-01", (1 : ℚ))), (20200102, ("2020-01-02", 2))] =
      [("2020-01-01", 1), ("2020-01-02", 2)] := by decide
  have hmean : rowsMean [("2020-01-01", (1 : ℚ)), ("2020-01-02", 2)] = some (3 / 2) := by
    norm_num [rowsMean]
  have hne : ¬ rowsMean [("2020-01-01", (1 : ℚ)), ("2020-01-02", 2)] = some 0 := by
    rw [hmean]
    norm_num
  have hmain : napiMain [("2020-01-01", (1 : ℚ)), ("2020-01-02", 2)] 0 1 (3 / 2) 2 =
      [⟨"2020-01-01", 1, none, none⟩, ⟨"2020-01-02", 2, none, none⟩] := by
    norm_num [napiMain, decaySum, nthD, classifyNapi, List.range_succ]
  refine ⟨?_, hmean, by norm_num, by simp⟩
  simp [calculate_napi, napiBody, hparse, hsort, hne, hmean, hmain]

/-- C1 witness: a table with mean 3/2, k = 1/2, N = 1 — row index 1 gets
exactly the rounded formula value. -/
theorem c1_napi_formula_witness :
    (nthD ⟨"", 0, none, none⟩
        (napiMain (sortByDate [(20200101, ("2020-01-01", 1)), (20200102, ("2020-01-02", 2))])
          (1 / 2) 1 (3 / 2) 2) 1).napi =
      some (pyRound
        (napiNumerator
          ((sortByDate [(20200101, ("2020-01-01", 1)), (20200102, ("2020-01-02", 2))]).map
            (fun r => r.2)) (1 / 2) 1 1 / ((3 / 2) * decaySum (1 / 2) 1)) 2) := by
  have h := (c1_napi_formula
    ⟨["Arithmetic Mean (mm)", "Date"], [("2020-01-01", 1), ("2020-01-02", 2)]⟩
    (1 / 2) 1 "Arithmetic Mean (mm)" "Date" "daily" 2
    [(20200101, ("2020-01-01", 1)), (20200102, ("2020-01-02", 2))] (3 / 2)
    (by decide) (by decide) (by decide)
    (by norm_num [rowsMean, sortByDate, sortAsc, insertAsc])
    (by norm_num) (by norm_num [decaySum, List.range_succ])).2 1 (by decide)
  exact h.1 (by norm_num)

/-! ### C6 — unit conversion in calculate_stats -/

/-- C6: on a sample that is neither empty nor all-NaN, precipitation with
target unit "in" divides each raw statistic by 25.40 before rounding,
while any other target leaves it unconverted (rounded only); a variable
code starting with "t" with target "f" applies x*9/5+32 before rounding,
any other target is a no-op; any other variable code gets unconverted
statistics plus a logged warning (not an error). -/
theorem c6_unit_conversion (series : List (Option ℚ)) (d : ℕ)
    (hne : series ≠ []) (hnn : series.all (fun c => c.isNone) = false) :
    ((calculate_stats series "ppt" "in" d).1 =
      ⟨(npMin series).map (fun v => pyRound (v / (127 / 5)) d),
       (npMax series).map (fun v => pyRound (v / (127 / 5)) d),
       (npMean series).map (fun v => pyRound (v / (127 / 5)) d),
       (npMedian series).map (fun v => pyRound (v / (127 / 5)) d)⟩) ∧
    (∀ u, u ≠ "in" →
      (calculate_stats series "ppt" u d).1 =
        ⟨(npMin series).map (fun v => pyRound v d),
         (npMax series).map (fun v => pyRound v d),
         (npMean series).map (fun v => pyRound v d),
         (npMedian series).map (fun v => pyRound v d)⟩) ∧
    (∀ c, strStartsWith c "t" = true →
      (calculate_stats series c "f" d).1 =
        ⟨(npMin series).map (fun v => pyRound (v * 9 / 5 + 32) d),
         (npMax series).map (fun v => pyRound (v * 9 / 5 + 32) d),
         (npMean series).map (fun v => pyRound (v * 9 / 5 + 32) d),
         (npMedian series).map (fun v => pyRound (v * 9 / 5 + 32) d)⟩) ∧
    (∀ c u, strStartsWith c "t" = true → u ≠ "f" →
      (calculate_stats series c u d).1 =
        ⟨(npMin series).map (fun v => pyRound v d),
         (npMax series).map (fun v => pyRound v d),
         (npMean series).map (fun v => pyRound v d),
         (npMedian series).map (fun v => pyRound v d)⟩) ∧
    (∀ c u, c ≠ "ppt" → strStartsWith c "t" = false →
      calculate_stats series c u d =
        (⟨(npMin series).map (fun v => pyRound v d),
          (npMax series).map (fun v => pyRound v d),
          (npMean series).map (fun v => pyRound v d),
          (npMedian series).map (fun v => pyRound v d)⟩,
         [⟨.warning, "Climate variable not explicitly handled. Calculating generic statistics."⟩])) := by
  have hE : series.isEmpty = false := by
    cases series with
    | nil => exact absurd rfl hne
    | cons a l => rfl
  refine ⟨?_, ?_, ?_, ?_, ?_⟩
  · simp [calculate_stats, convertedStats, hE, hnn]
  · intro u hu
    simp [calculate_stats, convertedStats, hE, hnn, hu]
  · intro c hc
    have hcp : c ≠ "ppt" := by
      intro h
      rw [h] at hc
      exact absurd hc (by decide)
    simp [calculate_stats, convertedStats, hE, hnn, hc, hcp]
  · intro c u hc hu
    have hcp : c ≠ "ppt" := by
      intro h
      rw [h] at hc
      exact absurd hc (by decide)
    simp [calculate_stats, convertedStats, hE, hnn, hc, hcp, hu]
  · intro c u hcp hc
    simp [calculate_stats, convertedStats, hE, hnn, hc, hcp]

/-- C6 witness: the theorem applied to a one-cell sample for the
inches conversion and for an unhandled variable code. -/
theorem c6_unit_conversion_witness :
    (calculate_stats [some (127 / 5)] "ppt" "in" 2).1 =
      ⟨(npMin [some (127 / 5)]).map (fun v => pyRound (v / (127 / 5)) 2),
       (npMax [some (127 / 5)]).map (fun v => pyRound (v / (127 / 5)) 2),
       (npMean [some (127 / 5)]).map (fun v => pyRound (v / (127 / 5)) 2),
       (npMedian [some (127 / 5)]).map (fun v => pyRound (v / (127 / 5)) 2)⟩ ∧
    calculate_stats [some (127 / 5)] "vpdmax" "in" 2 =
      (⟨(npMin [some (127 / 5)]).map (fun v => pyRound v 2),
        (npMax [some (127 / 5)]).map (fun v => pyRound v 2),
        (npMean [some (127 / 5)]).map (fun v => pyRound v 2),
        (npMedian [some (127 / 5)]).map (fun v => pyRound v 2)⟩,
       [⟨.warning, "Climate variable not explicitly handled. Calculating generic statistics."⟩]) :=
  ⟨(c6_unit_conversion [some (127 / 5)] 2 (by decide) (by decide)).1,
   (c6_unit_conversion [some (127 / 5)] 2 (by decide) (by decide)).2.2.2.2 "vpdmax" "in"
     (by decide) (by decide)⟩

/-! ### C7 — empty or all-NaN valid sample -/

/-- C7: a raster whose valid sample is empty or entirely NaN is skipped
with a logged warning, no row is emitted, nothing is raised, and the
surrounding run produces exactly the rows it would produce without that
raster. -/
theorem c7_empty_sample_skip (r : Raster) (climate unit : String) (d : ℕ)
    (pre post : List Raster)
    (h : validSample r = [] ∨ (validSample r).all (fun c => c.isNone) = true) :
    processRaster r climate unit d =
      .ok (none, nodataWarnings r ++
        [⟨.warning, "All valid data is NoData/NaN in " ++ r.name ++ ". Skipping."⟩]) ∧
    climate_data (pre ++ r :: post) climate unit d = climate_data (pre ++ post) climate unit d := by
  have hcond : ((validSample r).isEmpty || (validSample r).all (fun c => c.isNone)) = true := by
    rcases h with h | h
    · rw [h]
      rfl
    · rw [h]
      simp
  have hpr : processRaster r climate unit d =
      .ok (none, nodataWarnings r ++
        [⟨.warning, "All valid data is NoData/NaN in " ++ r.name ++ ". Skipping."⟩]) := by
    simp only [processRaster]
    rw [if_pos hcond]
  refine ⟨hpr, ?_⟩
  induction pre with
  | nil => simp [climate_data, hpr]
  | cons a l ih =>
    simp only [List.cons_append, climate_data, List.append_eq]
    rw [ih]

/-- C7 witness: a single-cell raster whose only cell equals the sentinel
nodata value contributes zero rows and a logged skip. -/
theorem c7_empty_sample_skip_witness :
    processRaster ⟨"prism_ppt_us_20200101.tif", [[some (-9999)]], .sentinel (-9999), 1, 0⟩
        "ppt" "mm" 2 =
      .ok (none,
        [⟨.warning, "All valid data is NoData/NaN in prism_ppt_us_20200101.tif. Skipping."⟩]) ∧
    climate_data [⟨"prism_ppt_us_20200101.tif", [[some (-9999)]], .sentinel (-9999), 1, 0⟩]
        "ppt" "mm" 2 = .ok [] := by
  have h := c7_empty_sample_skip
    ⟨"prism_ppt_us_20200101.tif", [[some (-9999)]], .sentinel (-9999), 1, 0⟩
    "ppt" "mm" 2 [] [] (Or.inl (by decide))
  exact ⟨by simpa [nodataWarnings] using h.1, by simpa [climate_data] using h.2⟩

/-! ### C2 — scale/offset are computed but never applied (code bug) -/

/-- C2 failing input: a raster with scale 2 and offset 5 whose only cell
stores 3.  The source computes `clean_data = data*2+5` but then filters
and aggregates the raw `data` (data_processing.py:126 versus 132-143), so
the emitted statistics are 3, not 3*2+5 = 11 as the documented invariant
requires. -/
theorem c2_scale_offset_ignored :
    processRaster ⟨"prism_ppt_us_20200101.tif", [[some 3]], .absent, 2, 5⟩ "ppt" "mm" 2 =
      .ok (some ⟨"prism_ppt_us_20200101.tif", "ppt", "2020-01-01",
             some 3, some 3, some 3, some 3⟩, []) ∧
    (3 : ℚ) * 2 + 5 ≠ 3 := by
  have hparse : parse_filename "prism_ppt_us_20200101.tif" =
      .ok ("ppt", none, "us", "2020-01-01") := by decide
  have hstats : calculate_stats [some (3 : ℚ)] "ppt" "mm" 2 =
      (⟨some 3, some 3, some 3, some 3⟩, []) := by
    simp [calculate_stats, convertedStats, npMin, npMax, npMean, npMedian, optVals, hasNaN,
      sortedVals, sortAsc, insertAsc]
    norm_num [pyRound, roundHalfEven]
  constructor
  · simp [processRaster, validSample, nodataWarnings, hstats, hparse]
  · norm_num

/-! ### C3 — an unparseable filename raises and aborts the run (code bug) -/

/-- C3 failing input: a raster file named `badname.tif`.  `parse_filename`
raises `ValueError` on a regex mismatch (utils.py:108, contradicting its
own docstring), the per-raster handler logs and re-raises
(data_processing.py:189-194), so the run aborts instead of falling back
and emitting a row. -/
theorem c3_unparseable_filename_aborts :
    processRaster ⟨"badname.tif", [[some 1]], .absent, 1, 0⟩ "ppt" "mm" 2 =
      .error "Error processing raster badname.tif: Regex did not match filename: badname.tif. Could not parse." ∧
    climate_data [⟨"badname.tif", [[some 1]], .absent, 1, 0⟩] "ppt" "mm" 2 =
      .error "Error processing raster badname.tif: Regex did not match filename: badname.tif. Could not parse." := by
  have hpf : parse_filename "badname.tif" =
      .error "Regex did not match filename: badname.tif. Could not parse." := by decide
  have hproc : processRaster ⟨"badname.tif", [[some 1]], .absent, 1, 0⟩ "ppt" "mm" 2 =
      .error "Error processing raster badname.tif: Regex did not match filename: badname.tif. Could not parse." := by
    simp [processRaster, validSample, hpf]
  exact ⟨hproc, by simp [climate_data, hproc]⟩

/-! ### C9 — clipped-raster output naming -/

/-- C9: a basename splitting into at least five underscore fields yields
the rebuilt `{source}_{variable}_{resolution}_{date}_clip.tif` name with
the extension stripped from the date field and no warning; fewer fields
yield the `{stem}_clip.tif` fallback with a logged warning — a name (and
hence a clipped file) is produced in both cases. -/
theorem c9_clip_naming (filename : String) :
    (5 ≤ (pySplit '_' filename.data).length →
      raster_clip_name filename =
        (String.mk (nthD [] (pySplit '_' filename.data) 0) ++ "_" ++
         String.mk (nthD [] (pySplit '_' filename.data) 1) ++ "_" ++
         String.mk (nthD [] (pySplit '_' filename.data) 3) ++ "_" ++
         String.mk (nthD [] (pySplit '.' (nthD [] (pySplit '_' filename.data) 4)) 0) ++
         "_clip.tif", [])) ∧
    ((pySplit '_' filename.data).length < 5 →
      raster_clip_name filename =
        (splitextStem filename ++ "_clip.tif",
         [⟨.warning, "Could not parse filename for clipped output: " ++ filename⟩])) := by
  constructor
  · intro h
    simp [raster_clip_name, h]
  · intro h
    have h2 : ¬ 5 ≤ (pySplit '_' filename.data).length := by omega
    simp [raster_clip_name, h2]

/-- C9 witness: the theorem applied to a five-field name and to a
fallback name. -/
theorem c9_clip_naming_witness :
    raster_clip_name "prism_ppt_us_30s_20200101.tif" = ("prism_ppt_30s_20200101_clip.tif", []) ∧
    raster_clip_name "odd.tif" =
      ("odd_clip.tif", [⟨.warning, "Could not parse filename for clipped output: odd.tif"⟩]) := by
  constructor
  · exact ((c9_clip_naming "prism_ppt_us_30s_20200101.tif").1 (by decide)).trans (by decide)
  · exact ((c9_clip_naming "odd.tif").2 (by decide)).trans (by decide)

end ClimateDataAPI
